import Mathlib

/- Verification of the weather_app core (fayyoz24/weather_app), shallowly
embedded from the Python/Django source: the weather-code dictionary and
forecast normalizer of `WeatherService` (services.py), the search ledger of
`UserService.save_search` (services.py), the request validation of
serializers.py, the request handling of views.py, and the popular-cities
aggregation.  Machine floats appear in the source only as opaque values that
are stored, compared for equality and passed through, so coordinates and
metric values are modelled as rationals / abstract values. -/

namespace WeatherApp

/-! ## Weather code dictionary (services.py, WeatherService._get_weather_description)

The Python function builds a dict literal and returns
`weather_codes.get(code, "Unknown")`; `code` may be `None` (absent), which is
never a key, hence also yields `"Unknown"`. -/

/-- The dict literal of `_get_weather_description`, as an association list in
source order. -/
def weather_codes : List (Int × String) :=
  [(0, "Clear sky"),
   (1, "Mainly clear"),
   (2, "Partly cloudy"),
   (3, "Overcast"),
   (45, "Fog"),
   (48, "Depositing rime fog"),
   (51, "Light drizzle"),
   (53, "Moderate drizzle"),
   (55, "Dense drizzle"),
   (56, "Light freezing drizzle"),
   (57, "Dense freezing drizzle"),
   (61, "Slight rain"),
   (63, "Moderate rain"),
   (65, "Heavy rain"),
   (66, "Light freezing rain"),
   (67, "Heavy freezing rain"),
   (71, "Slight snow fall"),
   (73, "Moderate snow fall"),
   (75, "Heavy snow fall"),
   (77, "Snow grains"),
   (80, "Slight rain showers"),
   (81, "Moderate rain showers"),
   (82, "Violent rain showers"),
   (85, "Slight snow showers"),
   (86, "Heavy snow showers"),
   (95, "Thunderstorm"),
   (96, "Thunderstorm with slight hail"),
   (99, "Thunderstorm with heavy hail")]

/-- `WeatherService._get_weather_description`: `weather_codes.get(code, "Unknown")`,
with `none` standing for Python `None` / an absent code. -/
def get_weather_description (code : Option Int) : String :=
  match code with
  | none => "Unknown"
  | some c => (weather_codes.lookup c).getD "Unknown"

/-! ## Forecast normalizer (services.py, WeatherService._format_weather_data)

The raw provider response holds parallel arrays keyed by metric name.  A key
that is absent behaves in the source exactly like an empty array (both make
every guard `i < len(hourly.get(k, []))` false), so absent metric arrays are
modelled as `[]`.  Metric values other than weather codes are opaque to the
normalizer and modelled by a type parameter `α`; weather codes are integers
because they are fed to the code dictionary. -/

/-- The `hourly` block of the raw response: the metric arrays requested by
`get_weather_data`. -/
structure HourlyRaw (α : Type) where
  time : List String
  temperature_2m : List α
  relative_humidity_2m : List α
  precipitation_probability : List α
  precipitation : List α
  weather_code : List Int
  wind_speed_10m : List α
deriving DecidableEq

/-- One element of the normalizer's `hourly_forecast` output. -/
structure HourlyEntry (α : Type) where
  time : String
  temperature : Option α
  humidity : Option α
  precipitation_probability : Option α
  precipitation : Option α
  weather_code : Option Int
  weather_description : String
  wind_speed : Option α
deriving DecidableEq

/-- The `daily` block of the raw response. -/
structure DailyRaw (α : Type) where
  time : List String
  weather_code : List Int
  temperature_2m_max : List α
  temperature_2m_min : List α
  apparent_temperature_max : List α
  apparent_temperature_min : List α
  precipitation_sum : List α
  wind_speed_10m_max : List α
  wind_direction_10m_dominant : List α
deriving DecidableEq

/-- One element of the normalizer's `daily_forecast` output. -/
structure DailyEntry (α : Type) where
  date : String
  temperature_max : Option α
  temperature_min : Option α
  feels_like_max : Option α
  feels_like_min : Option α
  precipitation : Option α
  wind_speed_max : Option α
  wind_direction : Option α
  weather_code : Option Int
  weather_description : String
deriving DecidableEq

/-- The parts of the raw forecast response that the hourly/daily normalization
reads (`raw_data.get('hourly', ...)` and `raw_data.get('daily', ...)`). -/
structure RawData (α : Type) where
  hourly : HourlyRaw α
  daily : DailyRaw α
deriving DecidableEq

/-- The normalizer's output fields under verification. -/
structure Formatted (α : Type) where
  hourly_forecast : List (HourlyEntry α)
  daily_forecast : List (DailyEntry α)
deriving DecidableEq

/-- The hourly loop of `_format_weather_data`: guarded by
`if hourly.get('time'):`, it runs `i` over `range(min(24, len(time)))` and
emits, for each metric `m`, `hourly[m][i] if i < len(hourly.get(m, [])) else
None`, which is exactly `List.getElem?`. -/
def format_hourly {α : Type} (h : HourlyRaw α) : List (HourlyEntry α) :=
  if h.time = [] then []
  else
    (h.time.take 24).enum.map fun p =>
      { time := p.2
        temperature := h.temperature_2m[p.1]?
        humidity := h.relative_humidity_2m[p.1]?
        precipitation_probability := h.precipitation_probability[p.1]?
        precipitation := h.precipitation[p.1]?
        weather_code := h.weather_code[p.1]?
        weather_description := get_weather_description h.weather_code[p.1]?
        wind_speed := h.wind_speed_10m[p.1]? }

/-- The daily loop of `_format_weather_data`: guarded by
`if daily.get('time'):`, it runs `i` over `range(len(time))` with no cap, with
the same per-metric guard. -/
def format_daily {α : Type} (d : DailyRaw α) : List (DailyEntry α) :=
  if d.time = [] then []
  else
    d.time.enum.map fun p =>
      { date := p.2
        temperature_max := d.temperature_2m_max[p.1]?
        temperature_min := d.temperature_2m_min[p.1]?
        feels_like_max := d.apparent_temperature_max[p.1]?
        feels_like_min := d.apparent_temperature_min[p.1]?
        precipitation := d.precipitation_sum[p.1]?
        wind_speed_max := d.wind_speed_10m_max[p.1]?
        wind_direction := d.wind_direction_10m_dominant[p.1]?
        weather_code := d.weather_code[p.1]?
        weather_description := get_weather_description d.weather_code[p.1]? }

/-- `WeatherService._format_weather_data`, restricted to the hourly and daily
blocks (the `current_weather` block is a flat field copy with no indexing). -/
def format_weather_data {α : Type} (raw : RawData α) : Formatted α :=
  { hourly_forecast := format_hourly raw.hourly
    daily_forecast := format_daily raw.daily }

/-! ## City-search validation (serializers.py, CitySearchSerializer)

The `query` field is `CharField(max_length=200, required=True)`.  DRF's
`CharField` strips surrounding whitespace (`trim_whitespace` defaults to
true), rejects a blank result (`allow_blank` defaults to false), then runs
`MaxLengthValidator(200)` on the stripped value, and finally the serializer
calls `validate_query`, which rejects when `len(value.strip()) < 2` and
returns `value.strip()`.  `none` models an absent field (rejected by
`required=True`). -/

/-- Python `str.strip()`: drop whitespace from both ends.  (Lean's built-in
`String.trim` is not kernel-reducible, so the strip is written over the
character list.) -/
def pyStrip (s : String) : String :=
  ⟨(((s.data.dropWhile Char.isWhitespace).reverse.dropWhile Char.isWhitespace).reverse)⟩

/-- Full field validation for `query`; `none` means the request is rejected
with a validation error before any network call, `some q` means the view
proceeds to call the geocoding provider with `q`. -/
def validate_query (query : Option String) : Option String :=
  match query with
  | none => none
  | some s =>
    let t := pyStrip s
    if t.length = 0 then none
    else if 200 < t.length then none
    else if (pyStrip t).length < 2 then none
    else some (pyStrip t)

/-- Outcome of `CitySearchView.post` as far as validation and the outbound
call are concerned. -/
inductive SearchOutcome where
  | validation_error : SearchOutcome
  | geocode : String → SearchOutcome
deriving DecidableEq

/-- `CitySearchView.post`: serializer-invalid data returns 400 immediately;
otherwise `WeatherService.search_cities(query)` is called. -/
def city_search_post (query : Option String) : SearchOutcome :=
  match validate_query query with
  | none => SearchOutcome.validation_error
  | some q => SearchOutcome.geocode q

/-! ## City search (services.py, WeatherService.search_cities) -/

/-- One element of the provider's `results` array; every field is read with
`result.get(...)`, so each is optional. -/
structure GeoResult where
  name : Option String
  country : Option String
  admin1 : Option String
  latitude : Option ℚ
  longitude : Option ℚ
deriving DecidableEq

/-- One element of the list returned by `search_cities`. -/
structure CityData where
  name : String
  country : String
  admin1 : String
  latitude : Option ℚ
  longitude : Option ℚ
deriving DecidableEq

/-- The query parameters `search_cities` sends to the geocoding endpoint. -/
structure GeocodingParams where
  name : String
  count : Nat
  language : String
  format : String
deriving DecidableEq

/-- The `params` dict built by `search_cities`. -/
def geocoding_params (query : String) : GeocodingParams :=
  { name := query, count := 10, language := "en", format := "json" }

/-- The response-processing loop of `search_cities`: `if 'results' in data:`
append one city dict per element of `data['results']`, with no slicing or
client-side cap.  `none` models a response without a `results` key. -/
def search_cities_results (resp : Option (List GeoResult)) : List CityData :=
  match resp with
  | none => []
  | some results =>
    results.map fun r =>
      { name := r.name.getD ""
        country := r.country.getD ""
        admin1 := r.admin1.getD ""
        latitude := r.latitude
        longitude := r.longitude }

/-! ## Search ledger (models.py + services.py, UserService.save_search)

`City` has `unique_together = ['name', 'country', 'latitude', 'longitude']`;
`SearchHistory` has `unique_together = ['user', 'city']`.  The store is
modelled as lists of rows plus the next auto-increment id for cities; users are
identified by a number (the opaque session key), timestamps by a number.
`get_or_create` is a lookup followed by an insert of the defaults when the
lookup finds nothing.  The write-back of the incremented counter updates the
row with the fetched row's key; under the `unique_together` constraint at
most one row carries that key. -/

/-- The `city_data` dict passed to `save_search`: the four key attributes are
always present, `admin1` is read with `city_data.get('admin1', '')` so it may
be absent (`none`). -/
structure CityAttrs where
  name : String
  country : String
  admin1 : Option String
  latitude : ℚ
  longitude : ℚ
deriving DecidableEq

/-- A persisted `City` row. -/
structure CityRow where
  id : Nat
  name : String
  country : String
  admin1 : String
  latitude : ℚ
  longitude : ℚ
deriving DecidableEq

/-- A persisted `SearchHistory` row. -/
structure HistoryRow where
  userId : Nat
  cityId : Nat
  search_count : Nat
  last_searched : Nat
  created_at : Nat
deriving DecidableEq

/-- The persisted store. -/
structure DB where
  cities : List CityRow
  history : List HistoryRow
  nextCityId : Nat
deriving DecidableEq

/-- The `get_or_create` filter for `City`: the uniqueness tuple
(name, country, latitude, longitude); `admin1` is only a default, not part of
the lookup. -/
def cityKeyMatches (a : CityAttrs) (c : CityRow) : Bool :=
  c.name == a.name && c.country == a.country &&
    c.latitude == a.latitude && c.longitude == a.longitude

/-- The `get_or_create` filter for `SearchHistory`: the (user, city) pair. -/
def historyKeyMatches (u : Nat) (cid : Nat) (h : HistoryRow) : Bool :=
  h.userId == u && h.cityId == cid

/-- `UserService.save_search(user, city_data)`: get-or-create the `City` by
its uniqueness tuple (inserting with `admin1 = city_data.get('admin1', '')`),
then get-or-create the `SearchHistory` for (user, city) with
`search_count = 1`; when the entry already existed, increment `search_count`
and set `last_searched` to the current time.  Returns the new store and the
returned `search_history` row. -/
def save_search (u : Nat) (attrs : CityAttrs) (now : Nat) (db : DB) :
    DB × HistoryRow :=
  let cityStep : CityRow × DB :=
    match db.cities.find? (cityKeyMatches attrs) with
    | some c => (c, db)
    | none =>
      let c : CityRow :=
        { id := db.nextCityId
          name := attrs.name
          country := attrs.country
          admin1 := attrs.admin1.getD ""
          latitude := attrs.latitude
          longitude := attrs.longitude }
      (c, { db with cities := db.cities ++ [c], nextCityId := db.nextCityId + 1 })
  let city := cityStep.1
  let db1 := cityStep.2
  match db1.history.find? (historyKeyMatches u city.id) with
  | some h0 =>
    let h1 : HistoryRow := { h0 with search_count := h0.search_count + 1, last_searched := now }
    ({ db1 with
        history := db1.history.map fun h =>
          if historyKeyMatches u city.id h then h1 else h },
     h1)
  | none =>
    let h1 : HistoryRow :=
      { userId := u, cityId := city.id, search_count := 1,
        last_searched := now, created_at := now }
    ({ db1 with history := db1.history ++ [h1] }, h1)

/-! ## Weather request handling (serializers.py WeatherRequestSerializer,
views.py WeatherView.post)

`validate` raises unless `data.get('city_id')` is truthy or both
`data.get('latitude')` and `data.get('longitude')` are truthy; Python
truthiness makes the integer 0 and the float 0.0 behave like absent fields.
(`float('nan')` is truthy in Python but has no rational counterpart; the
model covers all finite coordinate values.) -/

/-- Python truthiness of an optional integer field. -/
def truthyInt (x : Option Int) : Bool :=
  match x with
  | none => false
  | some v => !(v == 0)

/-- Python truthiness of an optional numeric (float) field. -/
def truthyRat (x : Option ℚ) : Bool :=
  match x with
  | none => false
  | some v => !(v == 0)

/-- The body of a weather request after field deserialization. -/
structure WeatherRequest where
  city_id : Option Int
  latitude : Option ℚ
  longitude : Option ℚ
deriving DecidableEq

/-- `WeatherRequestSerializer.validate`: valid iff `city_id` is truthy or
both coordinates are truthy. -/
def weather_request_valid (r : WeatherRequest) : Bool :=
  truthyInt r.city_id || (truthyRat r.latitude && truthyRat r.longitude)

/-- The response of `WeatherView.post`, abstracted to the cases the view
distinguishes: 400 validation error, 404 city not found, or a forecast
payload (built from the upstream call at the given coordinates, carrying the
city id when the city path was taken). -/
inductive WeatherResponse where
  | validation_error : WeatherResponse
  | not_found : WeatherResponse
  | forecast : ℚ → ℚ → Option Nat → WeatherResponse
deriving DecidableEq

/-- The observable effect of one `WeatherView.post` call: the response, the
store afterwards, and whether the upstream forecast endpoint was called. -/
structure WeatherStep where
  response : WeatherResponse
  db : DB
  upstream_called : Bool
deriving DecidableEq

/-- `WeatherView.post` (upstream call assumed to succeed when made): invalid
body → 400; truthy `city_id` → look up `City` by id, absent → 404 with no
upstream call and no ledger write, present → upstream call then
`save_search`; otherwise → upstream call at the given coordinates with no
ledger write. -/
def weather_post (db : DB) (u : Nat) (r : WeatherRequest) (now : Nat) :
    WeatherStep :=
  if !(weather_request_valid r) then
    ⟨WeatherResponse.validation_error, db, false⟩
  else if truthyInt r.city_id then
    match db.cities.find? (fun c => (c.id : Int) == r.city_id.getD 0) with
    | none => ⟨WeatherResponse.not_found, db, false⟩
    | some c =>
      let attrs : CityAttrs :=
        { name := c.name, country := c.country, admin1 := some c.admin1,
          latitude := c.latitude, longitude := c.longitude }
      ⟨WeatherResponse.forecast c.latitude c.longitude (some c.id),
       (save_search u attrs now db).1, true⟩
  else
    ⟨WeatherResponse.forecast (r.latitude.getD 0) (r.longitude.getD 0) none,
     db, true⟩

/-! ## Popular cities aggregation (views.py, PopularCitiesView.get)

`SearchHistory.objects.values('city__name','city__country','city__id')
.annotate(total_searches=Sum('search_count'),
unique_users=Count('user', distinct=True))
.order_by('-total_searches')[:10]`: one group per city referenced by a
history row, the sum of `search_count` and the number of distinct users per
group, sorted descending by total (ties in unspecified order — any sorted
permutation refines the query), first 10. -/

/-- One aggregated group of the popular-cities query. -/
structure PopEntry where
  cityId : Nat
  total_searches : Nat
  unique_users : Nat
deriving DecidableEq

/-- The grouping keys: the distinct city ids referenced by history rows. -/
def city_ids (hist : List HistoryRow) : List Nat :=
  (hist.map (fun h => h.cityId)).dedup

/-- `Sum('search_count')` within one group. -/
def total_searches_for (hist : List HistoryRow) (cid : Nat) : Nat :=
  ((hist.filter (fun h => h.cityId == cid)).map (fun h => h.search_count)).sum

/-- `Count('user', distinct=True)` within one group. -/
def unique_users_for (hist : List HistoryRow) (cid : Nat) : Nat :=
  ((hist.filter (fun h => h.cityId == cid)).map (fun h => h.userId)).dedup.length

/-- `order_by('-total_searches')`: descending by total. -/
def popRel : PopEntry → PopEntry → Prop :=
  fun a b => b.total_searches ≤ a.total_searches

instance : DecidableRel popRel :=
  fun a b => inferInstanceAs (Decidable (b.total_searches ≤ a.total_searches))

instance : IsTotal PopEntry popRel :=
  ⟨fun a b => Nat.le_total b.total_searches a.total_searches⟩

instance : IsTrans PopEntry popRel :=
  ⟨fun _ _ _ hab hbc => le_trans hbc hab⟩

/-- `PopularCitiesView.get`: group, aggregate, sort descending by
`total_searches`, take the first 10. -/
def popular_cities (hist : List HistoryRow) : List PopEntry :=
  (List.insertionSort popRel
    ((city_ids hist).map fun cid =>
      { cityId := cid
        total_searches := total_searches_for hist cid
        unique_users := unique_users_for hist cid })).take 10

/-! ## Concrete stores, requests and responses used by witnesses and
counterexamples -/

/-- A one-hour, one-day response whose metric arrays are all empty, used to
witness the null-on-missing policy. -/
def rawShort : RawData Int :=
  { hourly :=
      { time := ["2025-01-01T00:00"], temperature_2m := [],
        relative_humidity_2m := [], precipitation_probability := [],
        precipitation := [], weather_code := [], wind_speed_10m := [] }
    daily :=
      { time := ["2025-01-01"], weather_code := [], temperature_2m_max := [],
        temperature_2m_min := [], apparent_temperature_max := [],
        apparent_temperature_min := [], precipitation_sum := [],
        wind_speed_10m_max := [], wind_direction_10m_dominant := [] } }

/-- The hourly entry `rawShort` normalizes to. -/
def entryShort : HourlyEntry Int :=
  { time := "2025-01-01T00:00", temperature := none, humidity := none,
    precipitation_probability := none, precipitation := none,
    weather_code := none, weather_description := "Unknown",
    wind_speed := none }

/-- The daily entry `rawShort` normalizes to. -/
def dailyShort : DailyEntry Int :=
  { date := "2025-01-01", temperature_max := none, temperature_min := none,
    feels_like_max := none, feels_like_min := none, precipitation := none,
    wind_speed_max := none, wind_direction := none, weather_code := none,
    weather_description := "Unknown" }

/-- A 201-character query with no whitespace. -/
def longQuery : String := String.mk (List.replicate 201 'a')

/-- A geocoding response whose `results` array has 11 matches. -/
def geoEleven : List GeoResult :=
  List.replicate 11
    { name := some "Springfield", country := some "United States",
      admin1 := none, latitude := some 40, longitude := some (-90) }

/-- An empty store whose next city id is 1 (Django auto ids start at 1). -/
def dbEmpty : DB := { cities := [], history := [], nextCityId := 1 }

/-- City attributes that carry a region value. -/
def attrsProvided : CityAttrs :=
  { name := "Austin", country := "United States", admin1 := some "Texas",
    latitude := 30, longitude := -97 }

/-- City attributes for the ledger witness, region key absent. -/
def attrsLondon : CityAttrs :=
  { name := "London", country := "United Kingdom", admin1 := none,
    latitude := 51507/1000, longitude := -1278/10000 }

/-- A weather request whose `city_id` is the integer 0 alongside valid
coordinates. -/
def reqZero : WeatherRequest :=
  { city_id := some 0, latitude := some 1, longitude := some 1 }

/-- A weather request for an absent city id. -/
def reqFive : WeatherRequest :=
  { city_id := some 5, latitude := none, longitude := none }

/-- A coordinates-only request on the equator. -/
def reqEquator : WeatherRequest :=
  { city_id := none, latitude := some 0, longitude := some 5 }

/-- A history relation with two cities: city 200 totals 5 searches by one
user, city 100 totals 4 searches by two users. -/
def histW : List HistoryRow :=
  [{ userId := 1, cityId := 100, search_count := 3, last_searched := 10, created_at := 10 },
   { userId := 2, cityId := 100, search_count := 1, last_searched := 11, created_at := 11 },
   { userId := 1, cityId := 200, search_count := 5, last_searched := 12, created_at := 12 }]

/-- Helper: a lookup over an association list misses every key that is not in
the key column. -/
theorem lookup_eq_none_of_not_mem {c : Int} :
    ∀ {l : List (Int × String)}, c ∉ l.map Prod.fst → l.lookup c = none := by
  intro l
  induction l with
  | nil => intro _; rfl
  | cons p t ih =>
    intro h
    simp only [List.map_cons, List.mem_cons, not_or] at h
    have hne : (c == p.1) = false := by
      simp [beq_eq_false_iff_ne]
      exact h.1
    simp only [List.lookup, hne]
    exact ih h.2

/-- Helper: a list whose head (if any) fails the predicate is unchanged by
`dropWhile`. -/
theorem dropWhile_eq_self_of_head {α : Type} (p : α → Bool) (l : List α)
    (h : ∀ a, l.head? = some a → p a = false) : l.dropWhile p = l := by
  cases l with
  | nil => rfl
  | cons a t =>
    have := h a rfl
    simp [List.dropWhile_cons, this]

/-- Helper: `dropWhile` is idempotent. -/
theorem dropWhile_dropWhile {α : Type} (p : α → Bool) (l : List α) :
    (l.dropWhile p).dropWhile p = l.dropWhile p := by
  induction l with
  | nil => rfl
  | cons a t ih =>
    by_cases h : p a
    · simp [List.dropWhile_cons, h, ih]
    · simp [List.dropWhile_cons, h]

/-- Helper: stripping both ends leaves a list that a further front
`dropWhile` does not change. -/
theorem strip_step1 {α : Type} (p : α → Bool) (l : List α) :
    (((l.dropWhile p).reverse.dropWhile p).reverse).dropWhile p
      = ((l.dropWhile p).reverse.dropWhile p).reverse := by
  apply dropWhile_eq_self_of_head
  intro a ha
  rw [List.head?_reverse] at ha
  by_cases hB : (l.dropWhile p).reverse.dropWhile p = []
  · rw [hB] at ha; simp at ha
  · obtain ⟨t, ht⟩ := List.dropWhile_suffix (l := (l.dropWhile p).reverse) p
    have h1 := List.getLast?_append_of_ne_nil t hB
    rw [ht] at h1
    have h2 : (l.dropWhile p).head? = some a := by
      rw [← List.getLast?_reverse, h1]
      exact ha
    have h3 := List.head?_dropWhile_not p l
    rw [h2] at h3
    exact h3

/-- Helper: stripping both ends of a list is idempotent. -/
theorem strip_idem {α : Type} (p : α → Bool) (l : List α) :
    ((((((l.dropWhile p).reverse.dropWhile p).reverse).dropWhile p).reverse).dropWhile p).reverse
      = ((l.dropWhile p).reverse.dropWhile p).reverse := by
  rw [strip_step1 p l,
      List.reverse_reverse ((l.dropWhile p).reverse.dropWhile p),
      dropWhile_dropWhile p ((l.dropWhile p).reverse)]

/-- Helper: `pyStrip` is idempotent, as Python's `strip` is. -/
theorem pyStrip_idem (s : String) : pyStrip (pyStrip s) = pyStrip s :=
  congrArg String.mk (strip_idem Char.isWhitespace s.data)

/-- C3: for every code in the fixed set the description is exactly the
documented string, and every other code, including an absent one, maps to
exactly "Unknown". -/
theorem weather_description_exact_mapping :
    (∀ c : Int, c ∉ weather_codes.map Prod.fst →
      get_weather_description (some c) = "Unknown") ∧
    get_weather_description none = "Unknown" ∧
    get_weather_description (some 0) = "Clear sky" ∧
    get_weather_description (some 1) = "Mainly clear" ∧
    get_weather_description (some 2) = "Partly cloudy" ∧
    get_weather_description (some 3) = "Overcast" ∧
    get_weather_description (some 45) = "Fog" ∧
    get_weather_description (some 48) = "Depositing rime fog" ∧
    get_weather_description (some 51) = "Light drizzle" ∧
    get_weather_description (some 53) = "Moderate drizzle" ∧
    get_weather_description (some 55) = "Dense drizzle" ∧
    get_weather_description (some 56) = "Light freezing drizzle" ∧
    get_weather_description (some 57) = "Dense freezing drizzle" ∧
    get_weather_description (some 61) = "Slight rain" ∧
    get_weather_description (some 63) = "Moderate rain" ∧
    get_weather_description (some 65) = "Heavy rain" ∧
    get_weather_description (some 66) = "Light freezing rain" ∧
    get_weather_description (some 67) = "Heavy freezing rain" ∧
    get_weather_description (some 71) = "Slight snow fall" ∧
    get_weather_description (some 73) = "Moderate snow fall" ∧
    get_weather_description (some 75) = "Heavy snow fall" ∧
    get_weather_description (some 77) = "Snow grains" ∧
    get_weather_description (some 80) = "Slight rain showers" ∧
    get_weather_description (some 81) = "Moderate rain showers" ∧
    get_weather_description (some 82) = "Violent rain showers" ∧
    get_weather_description (some 85) = "Slight snow showers" ∧
    get_weather_description (some 86) = "Heavy snow showers" ∧
    get_weather_description (some 95) = "Thunderstorm" ∧
    get_weather_description (some 96) = "Thunderstorm with slight hail" ∧
    get_weather_description (some 99) = "Thunderstorm with heavy hail" := by
  refine ⟨?_, rfl, rfl, rfl, rfl, rfl, rfl, rfl, rfl, rfl, rfl, rfl, rfl,
    rfl, rfl, rfl, rfl, rfl, rfl, rfl, rfl, rfl, rfl, rfl, rfl, rfl, rfl,
    rfl, rfl, rfl⟩
  intro c hc
  show (weather_codes.lookup c).getD "Unknown" = "Unknown"
  rw [lookup_eq_none_of_not_mem hc]
  rfl

/-- C3 witness: the undocumented code 4 resolves to "Unknown". -/
theorem weather_description_exact_mapping_witness :
    get_weather_description (some 4) = "Unknown" :=
  weather_description_exact_mapping.1 4 (by decide)

/-- C4: the normalized hourly forecast has min(24, hourly time entries)
elements and the daily forecast one element per daily time entry, uncapped. -/
theorem forecast_lengths {α : Type} (raw : RawData α) :
    (format_weather_data raw).hourly_forecast.length
        = min 24 raw.hourly.time.length ∧
    (format_weather_data raw).daily_forecast.length
        = raw.daily.time.length := by
  constructor
  · show (format_hourly raw.hourly).length = _
    unfold format_hourly
    by_cases h : raw.hourly.time = []
    · simp [h]
    · simp [h, List.length_take]
  · show (format_daily raw.daily).length = _
    unfold format_daily
    by_cases h : raw.daily.time = []
    · simp [h]
    · simp [h]

/-- C2: whenever a metric array of the hourly or daily block is too short,
every emitted entry at an index at or beyond that array's length carries
`none` in the corresponding field; the normalizer is a total function, so no
out-of-bounds failure can occur. -/
theorem null_beyond_metric_length {α : Type} (raw : RawData α) (i : Nat) :
    (∀ e : HourlyEntry α,
      (format_weather_data raw).hourly_forecast[i]? = some e →
      (raw.hourly.temperature_2m.length ≤ i → e.temperature = none) ∧
      (raw.hourly.relative_humidity_2m.length ≤ i → e.humidity = none) ∧
      (raw.hourly.precipitation_probability.length ≤ i →
        e.precipitation_probability = none) ∧
      (raw.hourly.precipitation.length ≤ i → e.precipitation = none) ∧
      (raw.hourly.weather_code.length ≤ i → e.weather_code = none) ∧
      (raw.hourly.wind_speed_10m.length ≤ i → e.wind_speed = none)) ∧
    (∀ f : DailyEntry α,
      (format_weather_data raw).daily_forecast[i]? = some f →
      (raw.daily.temperature_2m_max.length ≤ i → f.temperature_max = none) ∧
      (raw.daily.temperature_2m_min.length ≤ i → f.temperature_min = none) ∧
      (raw.daily.apparent_temperature_max.length ≤ i →
        f.feels_like_max = none) ∧
      (raw.daily.apparent_temperature_min.length ≤ i →
        f.feels_like_min = none) ∧
      (raw.daily.precipitation_sum.length ≤ i → f.precipitation = none) ∧
      (raw.daily.wind_speed_10m_max.length ≤ i → f.wind_speed_max = none) ∧
      (raw.daily.wind_direction_10m_dominant.length ≤ i →
        f.wind_direction = none) ∧
      (raw.daily.weather_code.length ≤ i → f.weather_code = none)) := by
  constructor
  · intro e he
    rw [show (format_weather_data raw).hourly_forecast
          = format_hourly raw.hourly from rfl] at he
    unfold format_hourly at he
    by_cases ht : raw.hourly.time = []
    · rw [if_pos ht] at he; simp at he
    · rw [if_neg ht, List.getElem?_map, List.getElem?_enum] at he
      cases hk : (raw.hourly.time.take 24)[i]? with
      | none => rw [hk] at he; simp at he
      | some t =>
        rw [hk] at he
        injection he with he
        subst he
        exact ⟨fun hl => List.getElem?_eq_none hl,
               fun hl => List.getElem?_eq_none hl,
               fun hl => List.getElem?_eq_none hl,
               fun hl => List.getElem?_eq_none hl,
               fun hl => List.getElem?_eq_none hl,
               fun hl => List.getElem?_eq_none hl⟩
  · intro f hf
    rw [show (format_weather_data raw).daily_forecast
          = format_daily raw.daily from rfl] at hf
    unfold format_daily at hf
    by_cases ht : raw.daily.time = []
    · rw [if_pos ht] at hf; simp at hf
    · rw [if_neg ht, List.getElem?_map, List.getElem?_enum] at hf
      cases hk : raw.daily.time[i]? with
      | none => rw [hk] at hf; simp at hf
      | some t =>
        rw [hk] at hf
        injection hf with hf
        subst hf
        exact ⟨fun hl => List.getElem?_eq_none hl,
               fun hl => List.getElem?_eq_none hl,
               fun hl => List.getElem?_eq_none hl,
               fun hl => List.getElem?_eq_none hl,
               fun hl => List.getElem?_eq_none hl,
               fun hl => List.getElem?_eq_none hl,
               fun hl => List.getElem?_eq_none hl,
               fun hl => List.getElem?_eq_none hl⟩

/-- C2 witness: on `rawShort`, the first hourly entry's temperature and the
first daily entry's weather code are both null. -/
theorem null_beyond_metric_length_witness :
    entryShort.temperature = none ∧ dailyShort.weather_code = none :=
  ⟨((null_beyond_metric_length rawShort 0).1 entryShort (by decide)).1
      (by decide),
   (((null_beyond_metric_length rawShort 0).2 dailyShort
      (by decide)).2.2.2.2.2.2.2) (by decide)⟩

set_option maxRecDepth 10000 in
/-- C5 counterexample: a 201-character query has at least 2 characters after
trimming, yet `CitySearchView.post` rejects it (the field's
`max_length=200`), so "rejected iff fewer than 2 trimmed characters" fails. -/
theorem query_min_length_iff_refuted :
    2 ≤ (pyStrip longQuery).length ∧
    city_search_post (some longQuery) = SearchOutcome.validation_error := by
  constructor
  · decide
  · decide

/-- C5 amended: a present query is rejected with a validation error, before
any network call, exactly when its trimmed form has fewer than 2 or more
than 200 characters; otherwise the view proceeds to the geocoding call with
the trimmed query. -/
theorem query_validation_characterization (s : String) :
    (((pyStrip s).length < 2 ∨ 200 < (pyStrip s).length) →
      city_search_post (some s) = SearchOutcome.validation_error) ∧
    (2 ≤ (pyStrip s).length → (pyStrip s).length ≤ 200 →
      city_search_post (some s) = SearchOutcome.geocode (pyStrip s)) := by
  unfold city_search_post validate_query
  constructor
  · intro h
    rcases h with h | h
    · by_cases h0 : (pyStrip s).length = 0
      · simp [h0]
      · have h200 : ¬ (200 < (pyStrip s).length) := by omega
        have hlt : (pyStrip (pyStrip s)).length < 2 := by
          rw [pyStrip_idem]; exact h
        simp [h0, h200, hlt]
    · have h0 : ¬ ((pyStrip s).length = 0) := by omega
      simp [h0, h]
  · intro h2 h200
    have h0 : ¬ ((pyStrip s).length = 0) := by omega
    have hn200 : ¬ (200 < (pyStrip s).length) := by omega
    have hge : ¬ ((pyStrip (pyStrip s)).length < 2) := by
      rw [pyStrip_idem]; omega
    have hlt2 : ¬ ((pyStrip s).length < 2) := by omega
    simp [h0, hn200, hge, hlt2, pyStrip_idem]

/-- C5 witness: "London" proceeds to the geocoding call, "L" is rejected. -/
theorem query_validation_characterization_witness :
    city_search_post (some "London") = SearchOutcome.geocode (pyStrip "London") ∧
    city_search_post (some "L") = SearchOutcome.validation_error :=
  ⟨(query_validation_characterization "London").2 (by decide) (by decide),
   (query_validation_characterization "L").1 (Or.inl (by decide))⟩

/-- C6 counterexample: on a geocoding response carrying 11 matches,
`search_cities` returns 11 cities — there is no client-side cap on the
response, only the `count=10` request parameter. -/
theorem search_cities_cap_refuted :
    10 < (search_cities_results (some geoEleven)).length := by
  simp [search_cities_results, geoEleven]

/-- C6 amended: `search_cities` asks the provider for at most 10 matches
(the `count` request parameter is 10) and returns exactly one city per entry
of the response's `results` array, without re-capping client-side. -/
theorem search_cities_request_cap (q : String) (resp : Option (List GeoResult)) :
    (geocoding_params q).count = 10 ∧
    (search_cities_results resp).length = (resp.getD []).length := by
  constructor
  · rfl
  · cases resp <;> simp [search_cities_results]

/-- C7 counterexample: when the City lookup misses and `city_data` carries a
region, the inserted row's region is that value, not the empty string. -/
theorem save_search_region_empty_refuted :
    (save_search 7 attrsProvided 5 dbEmpty).1.cities.map CityRow.admin1
        = ["Texas"] ∧
    "Texas" ≠ "" := by
  constructor
  · decide
  · decide

/-- C7 amended: when the City lookup by the uniqueness tuple misses,
`save_search` appends one new City row whose `admin1` is `city_data`'s
admin1 value, defaulting to the empty string exactly when the key is
absent. -/
theorem save_search_insert_region (u : Nat) (attrs : CityAttrs) (now : Nat)
    (db : DB) (hc : ∀ c ∈ db.cities, cityKeyMatches attrs c = false) :
    (save_search u attrs now db).1.cities
      = db.cities ++
        [{ id := db.nextCityId, name := attrs.name, country := attrs.country,
           admin1 := attrs.admin1.getD "", latitude := attrs.latitude,
           longitude := attrs.longitude }] := by
  have hfc : db.cities.find? (cityKeyMatches attrs) = none :=
    List.find?_eq_none.mpr (fun x hx => by simp [hc x hx])
  unfold save_search
  rw [hfc]
  cases hfh : db.history.find? (historyKeyMatches u db.nextCityId) <;>
    simp [hfh]

/-- C7 witness: inserting Austin with region "Texas" into the empty store
lands a row whose region is "Texas". -/
theorem save_search_insert_region_witness :
    (save_search 7 attrsProvided 5 dbEmpty).1.cities
      = dbEmpty.cities ++
        [{ id := 1, name := "Austin", country := "United States",
           admin1 := "Texas", latitude := 30, longitude := -97 }] :=
  save_search_insert_region 7 attrsProvided 5 dbEmpty
    (fun c hmem => absurd hmem (List.not_mem_nil c))

/-- C8 counterexample: the request `city_id=0` with coordinates (1,1) against
the empty store carries a city id that matches no City row, yet the view
answers with a forecast and makes the upstream call — Python truthiness
routes `city_id=0` to the coordinates path. -/
theorem weather_post_not_found_refuted :
    dbEmpty.cities.find? (fun c => (c.id : Int) == 0) = none ∧
    (weather_post dbEmpty 3 reqZero 0).upstream_called = true ∧
    (weather_post dbEmpty 3 reqZero 0).response ≠ WeatherResponse.not_found := by
  refine ⟨rfl, ?_, ?_⟩
  · decide
  · decide

/-- C8 amended: for every request whose `city_id` is a nonzero integer that
matches no persisted City row, the response is the 404 NotFound (distinct
from the 500 upstream-failure and 400 validation responses), the upstream
forecast endpoint is not called, and the store — including the search
history — is unchanged. -/
theorem weather_post_not_found (db : DB) (u now : Nat) (r : WeatherRequest)
    (n : Int) (hr : r.city_id = some n) (hn : n ≠ 0)
    (hfind : db.cities.find? (fun c => (c.id : Int) == n) = none) :
    weather_post db u r now
      = ⟨WeatherResponse.not_found, db, false⟩ := by
  have ht : truthyInt r.city_id = true := by simp [truthyInt, hr, hn]
  have hv : weather_request_valid r = true := by
    simp [weather_request_valid, ht]
  unfold weather_post
  rw [hv, ht, hr]
  simp only [Bool.not_true, Bool.false_eq_true, if_false, if_true,
    Option.getD_some]
  rw [hfind]

/-- C8 witness: an unknown nonzero city id (5) against the empty store yields
NotFound with no upstream call and no store change. -/
theorem weather_post_not_found_witness :
    weather_post dbEmpty 3 reqFive 0
      = ⟨WeatherResponse.not_found, dbEmpty, false⟩ :=
  weather_post_not_found dbEmpty 3 0 reqFive 5 rfl (by decide) rfl

/-- C10: a request without a city id whose latitude or longitude equals 0.0
is rejected as a validation error and never reaches the forecast call,
because Python truthiness treats the float 0.0 like an absent field. -/
theorem zero_coordinate_rejected (db : DB) (u now : Nat) (r : WeatherRequest)
    (hcid : r.city_id = none)
    (hz : r.latitude = some 0 ∨ r.longitude = some 0) :
    weather_post db u r now
      = ⟨WeatherResponse.validation_error, db, false⟩ := by
  have hv : weather_request_valid r = false := by
    rcases hz with h | h <;>
      simp [weather_request_valid, truthyInt, truthyRat, hcid, h]
  unfold weather_post
  simp [hv]

/-- C10 witness: latitude 0 (the equator) with longitude 5 and no city id is
rejected before any forecast call. -/
theorem zero_coordinate_rejected_witness :
    weather_post dbEmpty 3 reqEquator 0
      = ⟨WeatherResponse.validation_error, dbEmpty, false⟩ :=
  zero_coordinate_rejected dbEmpty 3 0 reqEquator rfl (Or.inl rfl)

/-- Helper: `save_search` when both the City lookup and the history lookup
miss — insert a fresh City row and a fresh history row with count 1. -/
theorem save_search_eq_fresh (u : Nat) (attrs : CityAttrs) (now : Nat)
    (db : DB)
    (h1 : db.cities.find? (cityKeyMatches attrs) = none)
    (h2 : db.history.find? (historyKeyMatches u db.nextCityId) = none) :
    save_search u attrs now db
      = ({ cities := db.cities ++
              [{ id := db.nextCityId, name := attrs.name,
                 country := attrs.country, admin1 := attrs.admin1.getD "",
                 latitude := attrs.latitude, longitude := attrs.longitude }],
           history := db.history ++
              [{ userId := u, cityId := db.nextCityId, search_count := 1,
                 last_searched := now, created_at := now }],
           nextCityId := db.nextCityId + 1 },
         { userId := u, cityId := db.nextCityId, search_count := 1,
           last_searched := now, created_at := now }) := by
  unfold save_search
  rw [h1]
  dsimp only
  rw [h2]

/-- Helper: `save_search` when the City lookup returns `c` and the history
lookup for (user, c) returns `h0` — increment the counter and stamp the
time. -/
theorem save_search_eq_existing (u : Nat) (attrs : CityAttrs) (now : Nat)
    (db : DB) (c : CityRow) (h0 : HistoryRow)
    (h1 : db.cities.find? (cityKeyMatches attrs) = some c)
    (h2 : db.history.find? (historyKeyMatches u c.id) = some h0) :
    save_search u attrs now db
      = ({ db with history := db.history.map (fun h =>
             if historyKeyMatches u c.id h
             then { h0 with search_count := h0.search_count + 1,
                            last_searched := now }
             else h) },
         { h0 with search_count := h0.search_count + 1,
                   last_searched := now }) := by
  unfold save_search
  rw [h1]
  dsimp only
  rw [h2]

/-- C1: starting from a store with no City row for the tuple of `attrs` and
no history row referencing the fresh city id, calling `save_search` twice
with identical attributes leaves exactly one City row for the tuple (the
freshly inserted one) and exactly one history row for (user, that city),
whose `search_count` is 2, which is also the count of the returned entry. -/
theorem record_search_twice (u : Nat) (attrs : CityAttrs) (t1 t2 : Nat)
    (db : DB)
    (hc : ∀ c ∈ db.cities, cityKeyMatches attrs c = false)
    (hh : ∀ h ∈ db.history, h.cityId < db.nextCityId) :
    ((save_search u attrs t2 (save_search u attrs t1 db).1).1.cities.filter
        (cityKeyMatches attrs)).map CityRow.id = [db.nextCityId] ∧
    ((save_search u attrs t2 (save_search u attrs t1 db).1).1.history.filter
        (historyKeyMatches u db.nextCityId)).map HistoryRow.search_count
      = [2] ∧
    (save_search u attrs t2 (save_search u attrs t1 db).1).2.search_count
      = 2 := by
  have hfc1 : db.cities.find? (cityKeyMatches attrs) = none :=
    List.find?_eq_none.mpr (fun x hx => by simp [hc x hx])
  have hhk : ∀ h ∈ db.history,
      historyKeyMatches u db.nextCityId h = false := by
    intro h hmem
    have hlt := hh h hmem
    unfold historyKeyMatches
    have hne : (h.cityId == db.nextCityId) = false := by
      rw [beq_eq_false_iff_ne]
      omega
    rw [hne, Bool.and_false]
  have hfh1 : db.history.find? (historyKeyMatches u db.nextCityId) = none :=
    List.find?_eq_none.mpr (fun x hx => by simp [hhk x hx])
  have e1 := save_search_eq_fresh u attrs t1 db hfc1 hfh1
  rw [e1]
  dsimp only
  have hmatchC : cityKeyMatches attrs
      { id := db.nextCityId, name := attrs.name, country := attrs.country,
        admin1 := attrs.admin1.getD "", latitude := attrs.latitude,
        longitude := attrs.longitude } = true := by
    simp [cityKeyMatches]
  have hmatchH : historyKeyMatches u db.nextCityId
      { userId := u, cityId := db.nextCityId, search_count := 1,
        last_searched := t1, created_at := t1 } = true := by
    simp [historyKeyMatches]
  have hfc2 : (db.cities ++
      [({ id := db.nextCityId, name := attrs.name, country := attrs.country,
          admin1 := attrs.admin1.getD "", latitude := attrs.latitude,
          longitude := attrs.longitude } : CityRow)]).find?
        (cityKeyMatches attrs)
      = some { id := db.nextCityId, name := attrs.name,
               country := attrs.country, admin1 := attrs.admin1.getD "",
               latitude := attrs.latitude, longitude := attrs.longitude } := by
    rw [List.find?_append, hfc1]
    simp [List.find?_cons, hmatchC]
  have hfh2 : (db.history ++
      [({ userId := u, cityId := db.nextCityId, search_count := 1,
          last_searched := t1, created_at := t1 } : HistoryRow)]).find?
        (historyKeyMatches u db.nextCityId)
      = some { userId := u, cityId := db.nextCityId, search_count := 1,
               last_searched := t1, created_at := t1 } := by
    rw [List.find?_append, hfh1]
    simp [List.find?_cons, hmatchH]
  have e2 := save_search_eq_existing u attrs t2
    { cities := db.cities ++
        [{ id := db.nextCityId, name := attrs.name, country := attrs.country,
           admin1 := attrs.admin1.getD "", latitude := attrs.latitude,
           longitude := attrs.longitude }],
      history := db.history ++
        [{ userId := u, cityId := db.nextCityId, search_count := 1,
           last_searched := t1, created_at := t1 }],
      nextCityId := db.nextCityId + 1 }
    { id := db.nextCityId, name := attrs.name, country := attrs.country,
      admin1 := attrs.admin1.getD "", latitude := attrs.latitude,
      longitude := attrs.longitude }
    { userId := u, cityId := db.nextCityId, search_count := 1,
      last_searched := t1, created_at := t1 }
    hfc2 hfh2
  rw [e2]
  dsimp only
  have hmapid : db.history.map (fun h =>
      if historyKeyMatches u db.nextCityId h
      then { userId := u, cityId := db.nextCityId, search_count := 1 + 1,
             last_searched := t2, created_at := t1 }
      else h) = db.history := by
    rw [List.map_congr_left (g := id) (by
      intro a ha
      simp [hhk a ha])]
    exact List.map_id db.history
  rw [List.map_append, hmapid]
  refine ⟨?_, ?_, rfl⟩
  · rw [List.filter_append,
        List.filter_eq_nil_iff.mpr (fun a ha => by simp [hc a ha])]
    simp [hmatchC]
  · rw [List.filter_append,
        List.filter_eq_nil_iff.mpr (fun a ha => by simp [hhk a ha])]
    simp [List.filter_cons, hmatchH, historyKeyMatches]

/-- C1 witness: recording the same London search twice into the empty store
leaves one City row (id 1) for the tuple and one history row for (user 7,
city 1) with `search_count` 2, which is also the returned count. -/
theorem record_search_twice_witness :
    ((save_search 7 attrsLondon 2 (save_search 7 attrsLondon 1 dbEmpty).1).1.cities.filter
        (cityKeyMatches attrsLondon)).map CityRow.id = [1] ∧
    ((save_search 7 attrsLondon 2 (save_search 7 attrsLondon 1 dbEmpty).1).1.history.filter
        (historyKeyMatches 7 1)).map HistoryRow.search_count = [2] ∧
    (save_search 7 attrsLondon 2 (save_search 7 attrsLondon 1 dbEmpty).1).2.search_count
      = 2 :=
  record_search_twice 7 attrsLondon 1 2 dbEmpty
    (fun c hmem => absurd hmem (List.not_mem_nil c))
    (fun h hmem => absurd hmem (List.not_mem_nil h))

/-- C9: the popular-cities query returns at most 10 groups, sorted
descending by `total_searches`; each returned group belongs to a city with
history rows and carries the sum of that city's `search_count` values as
`total_searches` and its number of distinct users as `unique_users`; no city
appears twice; every omitted city's total is at most every returned total
(top-10); and when there are at most 10 cities, none is omitted. -/
theorem popular_cities_spec (hist : List HistoryRow) :
    (popular_cities hist).length ≤ 10 ∧
    List.Sorted popRel (popular_cities hist) ∧
    (∀ e ∈ popular_cities hist,
      e.cityId ∈ city_ids hist ∧
      e.total_searches = total_searches_for hist e.cityId ∧
      e.unique_users = unique_users_for hist e.cityId) ∧
    ((popular_cities hist).map PopEntry.cityId).Nodup ∧
    (∀ cid ∈ city_ids hist,
      cid ∉ (popular_cities hist).map PopEntry.cityId →
      ∀ e ∈ popular_cities hist,
        total_searches_for hist cid ≤ e.total_searches) ∧
    (∀ cid ∈ city_ids hist, (city_ids hist).length ≤ 10 →
      cid ∈ (popular_cities hist).map PopEntry.cityId) := by
  set base : List PopEntry := (city_ids hist).map fun cid =>
    { cityId := cid
      total_searches := total_searches_for hist cid
      unique_users := unique_users_for hist cid } with hbase
  set sorted : List PopEntry := List.insertionSort popRel base with hsorted
  have hpc : popular_cities hist = sorted.take 10 := rfl
  have hperm : sorted.Perm base := List.perm_insertionSort popRel base
  have hmc : base.map PopEntry.cityId = city_ids hist := by
    rw [hbase, List.map_map]
    exact (List.map_congr_left fun a _ => rfl).trans (List.map_id _)
  have hsort : List.Sorted popRel sorted :=
    List.sorted_insertionSort popRel base
  rw [hpc]
  refine ⟨?_, ?_, ?_, ?_, ?_, ?_⟩
  · rw [List.length_take]
    exact inf_le_left
  · exact List.Pairwise.sublist (List.take_sublist 10 sorted) hsort
  · intro e he
    have hes : e ∈ base := hperm.mem_iff.mp (List.mem_of_mem_take he)
    obtain ⟨cid, hcid, rfl⟩ := List.mem_map.mp hes
    exact ⟨hcid, rfl, rfl⟩
  · have hnodup : (sorted.map PopEntry.cityId).Nodup :=
      (hperm.map PopEntry.cityId).nodup_iff.mpr (by
        rw [hmc]
        unfold city_ids
        exact List.nodup_dedup (hist.map fun h => h.cityId))
    exact ((List.take_sublist 10 sorted).map PopEntry.cityId).nodup hnodup
  · intro cid hcid hnot e he
    set ec : PopEntry :=
      { cityId := cid
        total_searches := total_searches_for hist cid
        unique_users := unique_users_for hist cid } with hec
    have hecb : ec ∈ base := List.mem_map.mpr ⟨cid, hcid, rfl⟩
    have hecs : ec ∈ sorted := hperm.mem_iff.mpr hecb
    have hnt : ec ∉ sorted.take 10 := by
      intro hin
      exact hnot (List.mem_map.mpr ⟨ec, hin, rfl⟩)
    have hdrop : ec ∈ sorted.drop 10 := by
      have := (List.take_append_drop 10 sorted) ▸ hecs
      rcases List.mem_append.mp this with h | h
      · exact absurd h hnt
      · exact h
    have hs2 : List.Pairwise popRel (sorted.take 10 ++ sorted.drop 10) := by
      rw [List.take_append_drop]
      exact hsort
    exact ((List.pairwise_append.mp hs2).2.2 e he ec hdrop :
      ec.total_searches ≤ e.total_searches)
  · intro cid hcid hlen
    have hble : sorted.length ≤ 10 := by
      rw [hperm.length_eq, hbase, List.length_map]
      exact hlen
    rw [List.take_of_length_le hble]
    exact (hperm.map PopEntry.cityId).mem_iff.mpr (hmc ▸ hcid)

/-- C9 witness: on `histW`, city 200 (total 5) is a returned group with the
correct aggregates, and the result has at most 10 groups. -/
theorem popular_cities_spec_witness :
    ({ cityId := 200, total_searches := 5, unique_users := 1 } : PopEntry).total_searches
        = total_searches_for histW 200 ∧
    ({ cityId := 200, total_searches := 5, unique_users := 1 } : PopEntry).unique_users
        = unique_users_for histW 200 ∧
    (popular_cities histW).length ≤ 10 :=
  ⟨(((popular_cities_spec histW).2.2.1
      { cityId := 200, total_searches := 5, unique_users := 1 }
      (by decide)).2.1),
   (((popular_cities_spec histW).2.2.1
      { cityId := 200, total_searches := 5, unique_users := 1 }
      (by decide)).2.2),
   (popular_cities_spec histW).1⟩

end WeatherApp
